import Mathlib

/-!
Verification of the NNVM `top/nn.py` operator registry and lowering dispatch
module.  The Python module registers, per operator name, a compute-lowering
function, a schedule-lowering function and a fusion pattern.  We embed the
module shallowly: tensor-expression primitives (`topi.*`) become constructors
of an expression type, compute-lowering functions become functions in a small
monad that threads a trace of the primitive calls made so far and an
`Except`-style error, and the pattern registrations become an association
list in source order with last-registration-wins lookup.
-/

set_option maxHeartbeats 1000000

namespace NN

/-- Failure kinds of the lowering functions, one per failure site of the
source: `unsupportedLayout` for the layout assertion, `invalidAttribute` for
non-positive or unsupported dilation, `unsupportedGrouping` for group counts
outside the supported set, `indexError i` for an out-of-range access
`inputs[i]`, and `shapeIndexError` for an out-of-range access into a tensor
shape. -/
inductive Error where
  | unsupportedLayout
  | invalidAttribute
  | unsupportedGrouping
  | indexError (i : Nat)
  | shapeIndexError
  deriving DecidableEq

/-- An input tensor handle: an opaque identifier together with its shape
(the source reads `inputs[0].shape[1]`). -/
structure TensorHandle where
  id : Nat
  shape : List Int
  deriving DecidableEq

/-- Tensor expressions built by the tensor-expression primitives that the
compute-lowering functions invoke; one constructor per `topi` primitive used
by the module, with the argument order of the source call. -/
inductive Expr where
  | handle (h : TensorHandle)
  | dilate (x : Expr) (strides : List Int)
  | conv2d (data kernel : Expr) (strides padding : Int × Int) (layout : String)
  | depthwise_conv2d_nchw (data kernel : Expr) (strides padding : Int × Int)
  | conv2d_transpose_nchw (data kernel : Expr) (strides padding : Int × Int)
  | conv2d_NCHWc (data kernel : Expr) (channels : Int)
      (kernel_size strides padding : Int × Int)
  | dense (data weight : Expr) (bias : Option Expr)
  | expand_dims (x : Expr) (axis num_newaxis : Nat)
  | broadcast_add (lhs rhs : Expr)
  | pad (x : Expr) (pad_before pad_after : List Int)

/-- The lowering monad: a compute-lowering function threads the list of
tensor-expression primitive calls made so far (the trace, in call order) and
can fail with an `Error`.  On failure the trace records the calls made before
the failure. -/
def Lower (α : Type) : Type := List Expr → Except Error α × List Expr

/-- Return a value, making no primitive call. -/
def Lower.pure {α : Type} (a : α) : Lower α := fun t => (Except.ok a, t)

/-- Sequencing: run `x`; on success feed its value to `f`, on failure stop,
keeping the trace accumulated so far. -/
def Lower.bind {α β : Type} (x : Lower α) (f : α → Lower β) : Lower β := fun t =>
  match x t with
  | (Except.ok a, t1) => f a t1
  | (Except.error e, t1) => (Except.error e, t1)

instance : Monad Lower where
  pure := Lower.pure
  bind := Lower.bind

/-- Raise an error (a Python `raise`), making no primitive call. -/
def throwE {α : Type} (e : Error) : Lower α := fun t => (Except.error e, t)

/-- A Python `assert cond` at a failure site classified as `e`. -/
def assertL (p : Prop) [Decidable p] (e : Error) : Lower Unit := fun t =>
  (if p then Except.ok () else Except.error e, t)

/-- Invoke a tensor-expression primitive: record the constructed node on the
trace and return it. -/
def prim (e : Expr) : Lower Expr := fun t => (Except.ok e, t ++ [e])

/-- Zero-based list indexing (the semantics of Python `xs[i]` for the
non-negative literal indices this module uses): `some` the element when `i`
is in range, `none` otherwise. -/
def listIdx {α : Type} : List α → Nat → Option α
  | [], _ => none
  | x :: _, 0 => some x
  | _ :: xs, n + 1 => listIdx xs n

/-- `inputs[i]`: Python sequence indexing, failing with `indexError i` when
out of range. -/
def getInput (inputs : List TensorHandle) (i : Nat) : Lower TensorHandle := fun t =>
  match listIdx inputs i with
  | some h => (Except.ok h, t)
  | none => (Except.error (Error.indexError i), t)

/-- `get_const_int(h.shape[i])`: shape indexing, failing when out of range. -/
def shapeAt (h : TensorHandle) (i : Nat) : Lower Int := fun t =>
  match listIdx h.shape i with
  | some n => (Except.ok n, t)
  | none => (Except.error Error.shapeIndexError, t)

@[simp] theorem bind_eq {α β : Type} (x : Lower α) (f : α → Lower β) :
    (x >>= f) = Lower.bind x f := rfl

@[simp] theorem pure_eq {α : Type} (a : α) : (pure a : Lower α) = Lower.pure a := rfl

/-! ## Attribute views

Each compute-lowering function reads a fixed set of typed attributes; we model
the attribute bag of each operator as a structure holding exactly the
attributes the source reads, already coerced to the types the source requests
(`get_int_tuple`, `get_int`, `get_bool`, string access). -/

/-- The attributes `compute_conv2d` and `schedule_conv2d` read. -/
structure Conv2dAttrs where
  padding : Int × Int
  strides : Int × Int
  dilation : Int × Int
  groups : Int
  channels : Int
  layout : String
  use_bias : Bool
  deriving DecidableEq

/-- The attributes `compute_dense` reads. -/
structure DenseAttrs where
  use_bias : Bool
  deriving DecidableEq

/-- The attributes `compute_contrib_conv2d_NCHWc` reads. -/
structure Conv2dNCHWcAttrs where
  padding : Int × Int
  strides : Int × Int
  dilation : Int × Int
  kernel_size : Int × Int
  groups : Int
  channels : Int
  use_bias : Bool
  deriving DecidableEq

/-- The attributes `compute_conv2d_transpose` reads. -/
structure Conv2dTransposeAttrs where
  padding : Int × Int
  strides : Int × Int
  dilation : Int × Int
  groups : Int
  layout : String
  output_padding : Int × Int
  use_bias : Bool
  deriving DecidableEq

/-! ## Compute lowering -/

/-- Compute definition of dense (`compute_dense` in `nn.py`): with
`use_bias`, the three-input dense primitive on `inputs[0]`, `inputs[1]`,
`inputs[2]`; otherwise the two-input one. -/
def compute_dense (attrs : DenseAttrs) (inputs : List TensorHandle) : Lower Expr := do
  if attrs.use_bias then do
    let d ← getInput inputs 0
    let w ← getInput inputs 1
    let b ← getInput inputs 2
    prim (Expr.dense (Expr.handle d) (Expr.handle w) (some (Expr.handle b)))
  else do
    let d ← getInput inputs 0
    let w ← getInput inputs 1
    prim (Expr.dense (Expr.handle d) (Expr.handle w) none)

/-- Compute definition of conv2d (`compute_conv2d` in `nn.py`): assert the
layout, validate the dilation, dilate the kernel when dilation is not
`(1, 1)`, dispatch on `groups` (standard conv2d for `groups == 1`, depthwise
for `groups == inputs[0].shape[1] == channels`, error otherwise), then
optionally broadcast-add the bias expanded by two new axes. -/
def compute_conv2d (attrs : Conv2dAttrs) (inputs : List TensorHandle) : Lower Expr := do
  let padding := attrs.padding
  let strides := attrs.strides
  let dilation := attrs.dilation
  let groups := attrs.groups
  let channels := attrs.channels
  let layout := attrs.layout
  assertL (layout = "NCHW" ∨ layout = "NHWC") Error.unsupportedLayout
  let dilation_h := dilation.1
  let dilation_w := dilation.2
  let kernel ←
    if dilation_h < 1 ∨ dilation_w < 1 then
      throwE Error.invalidAttribute
    else if dilation = (1, 1) then do
      let k ← getInput inputs 1
      Lower.pure (Expr.handle k)
    else if layout = "NCHW" then do
      let k ← getInput inputs 1
      prim (Expr.dilate (Expr.handle k) [1, 1, dilation_h, dilation_w])
    else do
      let k ← getInput inputs 1
      prim (Expr.dilate (Expr.handle k) [1, dilation_h, dilation_w, 1])
  let out ←
    if groups = 1 then do
      let d ← getInput inputs 0
      prim (Expr.conv2d (Expr.handle d) kernel strides padding layout)
    else do
      let d ← getInput inputs 0
      let in_channels ← shapeAt d 1
      if groups = in_channels ∧ groups = channels then
        prim (Expr.depthwise_conv2d_nchw (Expr.handle d) kernel strides padding)
      else
        throwE Error.unsupportedGrouping
  if attrs.use_bias then do
    let b ← getInput inputs 2
    let bias ← prim (Expr.expand_dims (Expr.handle b)
      (if layout = "NCHW" then 1 else 0) 2)
    prim (Expr.broadcast_add out bias)
  else
    Lower.pure out

/-- Compute definition of conv2d NCHWc (`compute_contrib_conv2d_NCHWc` in
`nn.py`): dilation must be `(1, 1)`, only `groups == 1` is supported, then
optionally broadcast-add the bias expanded at axis 1. -/
def compute_contrib_conv2d_NCHWc (attrs : Conv2dNCHWcAttrs)
    (inputs : List TensorHandle) : Lower Expr := do
  let padding := attrs.padding
  let strides := attrs.strides
  let groups := attrs.groups
  let channels := attrs.channels
  assertL (attrs.dilation = (1, 1)) Error.invalidAttribute
  let out ←
    if groups = 1 then do
      let d ← getInput inputs 0
      let k ← getInput inputs 1
      prim (Expr.conv2d_NCHWc (Expr.handle d) (Expr.handle k) channels
        attrs.kernel_size strides padding)
    else
      throwE Error.unsupportedGrouping
  if attrs.use_bias then do
    let b ← getInput inputs 2
    let bias ← prim (Expr.expand_dims (Expr.handle b) 1 2)
    prim (Expr.broadcast_add out bias)
  else
    Lower.pure out

/-- Compute definition of conv2d_transpose (`compute_conv2d_transpose` in
`nn.py`): layout must be "NCHW", dilation `(1, 1)` and `groups == 1`; the
transpose-convolution primitive, then the optional bias add, then a zero pad
of `[0, 0, 0, 0]` before and `[0, 0, output_padding.1, output_padding.2]`
after the four axes. -/
def compute_conv2d_transpose (attrs : Conv2dTransposeAttrs)
    (inputs : List TensorHandle) : Lower Expr := do
  let padding := attrs.padding
  let strides := attrs.strides
  assertL (attrs.layout = "NCHW") Error.unsupportedLayout
  assertL (attrs.dilation = (1, 1)) Error.invalidAttribute
  assertL (attrs.groups = 1) Error.unsupportedGrouping
  let d ← getInput inputs 0
  let k ← getInput inputs 1
  let out0 ← prim (Expr.conv2d_transpose_nchw (Expr.handle d) (Expr.handle k)
    strides padding)
  let out ←
    if attrs.use_bias then do
      let b ← getInput inputs 2
      let bias ← prim (Expr.expand_dims (Expr.handle b) 1 2)
      prim (Expr.broadcast_add out0 bias)
    else
      Lower.pure out0
  let output_padding := attrs.output_padding
  prim (Expr.pad out
    [0, 0, 0, 0] [0, 0, output_padding.1, output_padding.2])

/-! ## Schedule lowering -/

/-- Schedule templates requested from the generic scheduler
(`topi.generic.*`). -/
inductive Template where
  | conv2d_nchw
  | conv2d_nhwc
  | depthwise_conv2d_nchw_sched
  | conv2d_transpose_nchw_sched
  | conv2d_NCHWc_sched
  | dense_sched
  | softmax_sched
  | pool
  | global_pool
  | injective
  | lrn_sched
  | l2_normalize_sched
  deriving DecidableEq

/-- A schedule request: the template chosen, together with the target whose
scope (`with tvm.target.create(target)`) was active when the template was
requested. -/
structure ScheduleCall where
  target : String
  template : Template
  deriving DecidableEq

/-- Schedule definition of conv2d (`schedule_conv2d` in `nn.py`): inside the
scope of the named target, the NCHW conv template for `groups == 1` and NCHW
layout, the NHWC conv template for `groups == 1` and NHWC layout, and the
depthwise NCHW template in every other case. -/
def schedule_conv2d (attrs : Conv2dAttrs) (target : String) : ScheduleCall :=
  { target := target
    template :=
      if attrs.groups = 1 ∧ attrs.layout = "NCHW" then Template.conv2d_nchw
      else if attrs.groups = 1 ∧ attrs.layout = "NHWC" then Template.conv2d_nhwc
      else Template.depthwise_conv2d_nchw_sched }

/-- Modelled from the spec: the external dilation primitive `topi.nn.dilate`
(not part of `src/`) inserts `stride - 1` zeros between consecutive kernel
taps along each axis; this reads off that zero count for one axis of a
strides list. -/
def zerosInserted (strides : List Int) (axis : Nat) : Option Int :=
  (listIdx strides axis).map (fun s => s - 1)

/-! ## Fusion pattern registry -/

/-- The fusion-pattern enumeration, ordered from most to least
fusion-permissive. -/
inductive OpPattern where
  | ELEMWISE
  | BROADCAST
  | INJECTIVE
  | OUT_ELEMWISE_FUSABLE
  | OPAQUE
  deriving DecidableEq

/-- The `reg.register_pattern(name, pattern)` calls made by the module, in
source order. -/
def patternRegistrations : List (String × OpPattern) :=
  [("relu", OpPattern.ELEMWISE),
   ("leaky_relu", OpPattern.ELEMWISE),
   ("prelu", OpPattern.BROADCAST),
   ("flatten", OpPattern.INJECTIVE),
   ("pad", OpPattern.INJECTIVE),
   ("__layout_transform__", OpPattern.INJECTIVE),
   ("softmax", OpPattern.OPAQUE),
   ("log_softmax", OpPattern.OPAQUE),
   ("dense", OpPattern.OUT_ELEMWISE_FUSABLE),
   ("conv2d", OpPattern.OUT_ELEMWISE_FUSABLE),
   ("_contrib_conv2d_NCHWc", OpPattern.OUT_ELEMWISE_FUSABLE),
   ("conv2d_transpose", OpPattern.OUT_ELEMWISE_FUSABLE),
   ("max_pool2d", OpPattern.OUT_ELEMWISE_FUSABLE),
   ("avg_pool2d", OpPattern.OUT_ELEMWISE_FUSABLE),
   ("global_max_pool2d", OpPattern.OUT_ELEMWISE_FUSABLE),
   ("global_avg_pool2d", OpPattern.OUT_ELEMWISE_FUSABLE),
   ("upsampling", OpPattern.INJECTIVE),
   ("lrn", OpPattern.OPAQUE),
   ("l2_normalize", OpPattern.OUT_ELEMWISE_FUSABLE)]

/-- The pattern slot of the registry entry for `name`: the last registration
wins, `none` when the name was never registered. -/
def registered_pattern (name : String) : Option OpPattern :=
  ((patternRegistrations.filter (fun p => p.1 == name)).getLast?).map (fun p => p.2)

/-! ## Concrete sample values, used to evaluate the lowering functions -/

/-- A sample data tensor in NCHW layout with 4 input channels. -/
def sampleData : TensorHandle := ⟨0, [1, 4, 8, 8]⟩

/-- A sample kernel tensor. -/
def sampleKernel : TensorHandle := ⟨1, [4, 4, 3, 3]⟩

/-- conv2d attributes: groups 1, channels 4, NCHW, dilation (1, 1), no bias. -/
def attrsStd : Conv2dAttrs := ⟨(0, 0), (1, 1), (1, 1), 1, 4, "NCHW", false⟩

/-- conv2d attributes for the depthwise path: groups = channels = 4, NCHW. -/
def attrsDW : Conv2dAttrs := ⟨(0, 0), (1, 1), (1, 1), 4, 4, "NCHW", false⟩

/-- conv2d attributes with dilation (2, 1), groups 1, NCHW. -/
def attrsDil : Conv2dAttrs := ⟨(0, 0), (1, 1), (2, 1), 1, 4, "NCHW", false⟩

/-- conv2d attributes with the invalid dilation (0, 1). -/
def attrsBadDil : Conv2dAttrs := ⟨(0, 0), (1, 1), (0, 1), 1, 4, "NCHW", false⟩

/-- conv2d attributes with a layout outside the supported set. -/
def attrsBadLay : Conv2dAttrs := ⟨(0, 0), (1, 1), (1, 1), 1, 4, "NHCW", false⟩

/-- conv2d attributes: NHWC, groups = channels = 2 (depthwise condition with
a non-1 group count). -/
def attrsNHWCdw : Conv2dAttrs := ⟨(0, 0), (1, 1), (1, 1), 2, 2, "NHWC", false⟩

/-- A data tensor whose axis-1 extent is 2, matching `attrsNHWCdw`. -/
def sampleData2 : TensorHandle := ⟨0, [1, 2, 8, 8]⟩

/-- conv2d attributes: NHWC, groups = channels = 1 = input channel count. -/
def cxAttrs : Conv2dAttrs := ⟨(0, 0), (1, 1), (1, 1), 1, 1, "NHWC", false⟩

/-- A data tensor whose axis-1 extent is 1, matching `cxAttrs`. -/
def cxData : TensorHandle := ⟨0, [1, 1, 8, 8]⟩

/-- conv2d_transpose attributes with output_padding (1, 2), no bias. -/
def attrsT : Conv2dTransposeAttrs := ⟨(0, 0), (1, 1), (1, 1), 1, "NCHW", (1, 2), false⟩

/-- conv2d NCHWc attributes: groups 1, no bias. -/
def attrsNCHWc1 : Conv2dNCHWcAttrs := ⟨(0, 0), (1, 1), (1, 1), (3, 3), 1, 4, false⟩

/-- dense attributes without bias. -/
def denseNoBias : DenseAttrs := ⟨false⟩

end NN

namespace NN

/-! ## Shared lemmas -/

/-- A layout outside the supported set makes `compute_conv2d` fail at the
layout assertion with no primitive call. -/
theorem compute_conv2d_bad_layout {attrs : Conv2dAttrs} (inputs : List TensorHandle)
    (hlay : ¬(attrs.layout = "NCHW" ∨ attrs.layout = "NHWC")) :
    compute_conv2d attrs inputs [] = (Except.error Error.unsupportedLayout, []) := by
  unfold compute_conv2d
  simp [hlay, Lower.bind, Lower.pure, assertL, throwE]

/-! ## Claims -/

/-- C6: every operator name registered in this module carries the fusion
pattern of the classification table: relu and leaky_relu are ELEMWISE; prelu
is BROADCAST; flatten, pad, __layout_transform__ and upsampling are
INJECTIVE; dense, conv2d, _contrib_conv2d_NCHWc, conv2d_transpose, the four
pooling operators and l2_normalize are OUT_ELEMWISE_FUSABLE; softmax,
log_softmax and lrn are OPAQUE. -/
theorem pattern_table_matches :
    registered_pattern ("relu") = some OpPattern.ELEMWISE ∧
    registered_pattern ("leaky_relu") = some OpPattern.ELEMWISE ∧
    registered_pattern ("prelu") = some OpPattern.BROADCAST ∧
    registered_pattern ("flatten") = some OpPattern.INJECTIVE ∧
    registered_pattern ("pad") = some OpPattern.INJECTIVE ∧
    registered_pattern ("__layout_transform__") = some OpPattern.INJECTIVE ∧
    registered_pattern ("upsampling") = some OpPattern.INJECTIVE ∧
    registered_pattern ("dense") = some OpPattern.OUT_ELEMWISE_FUSABLE ∧
    registered_pattern ("conv2d") = some OpPattern.OUT_ELEMWISE_FUSABLE ∧
    registered_pattern ("_contrib_conv2d_NCHWc") = some OpPattern.OUT_ELEMWISE_FUSABLE ∧
    registered_pattern ("conv2d_transpose") = some OpPattern.OUT_ELEMWISE_FUSABLE ∧
    registered_pattern ("max_pool2d") = some OpPattern.OUT_ELEMWISE_FUSABLE ∧
    registered_pattern ("avg_pool2d") = some OpPattern.OUT_ELEMWISE_FUSABLE ∧
    registered_pattern ("global_max_pool2d") = some OpPattern.OUT_ELEMWISE_FUSABLE ∧
    registered_pattern ("global_avg_pool2d") = some OpPattern.OUT_ELEMWISE_FUSABLE ∧
    registered_pattern ("l2_normalize") = some OpPattern.OUT_ELEMWISE_FUSABLE ∧
    registered_pattern ("softmax") = some OpPattern.OPAQUE ∧
    registered_pattern ("log_softmax") = some OpPattern.OPAQUE ∧
    registered_pattern ("lrn") = some OpPattern.OPAQUE := by
  decide


/-- C1: conv2d compute lowering dispatches on `groups`: with `groups == 1`
the standard convolution primitive is invoked on the (possibly dilated)
kernel; with `groups` equal to both the axis-1 extent of the data tensor and
the `channels` attribute (and not covered by the `groups == 1` case of the
dispatch chain) the depthwise convolution primitive is invoked; any other
`groups` value fails with `UnsupportedGroupingError`. -/
theorem conv2d_group_dispatch (attrs : Conv2dAttrs) (inputs : List TensorHandle)
    (d k : TensorHandle) (inC : Int)
    (hd : listIdx inputs 0 = some d) (hk : listIdx inputs 1 = some k)
    (hlay : attrs.layout = "NCHW" ∨ attrs.layout = "NHWC")
    (hdil : 1 ≤ attrs.dilation.1 ∧ 1 ≤ attrs.dilation.2)
    (hshape : listIdx d.shape 1 = some inC) :
    (attrs.groups = 1 →
      ∃ ker, Expr.conv2d (Expr.handle d) ker attrs.strides attrs.padding attrs.layout
        ∈ (compute_conv2d attrs inputs []).2) ∧
    (attrs.groups ≠ 1 → attrs.groups = inC → attrs.groups = attrs.channels →
      ∃ ker, Expr.depthwise_conv2d_nchw (Expr.handle d) ker attrs.strides attrs.padding
        ∈ (compute_conv2d attrs inputs []).2) ∧
    (attrs.groups ≠ 1 → ¬(attrs.groups = inC ∧ attrs.groups = attrs.channels) →
      (compute_conv2d attrs inputs []).1 = Except.error Error.unsupportedGrouping) := by
  have hnot : ¬ (attrs.dilation.1 < 1 ∨ attrs.dilation.2 < 1) := by omega
  refine ⟨?_, ?_, ?_⟩
  · intro hg
    unfold compute_conv2d
    rcases hb2 : listIdx inputs 2 with _ | b2 <;>
      rcases hlay with h | h <;>
        simp [h, hg, hd, hk, hshape, hb2, hnot, Lower.bind, Lower.pure, assertL,
          throwE, prim, getInput, shapeAt] <;>
        repeat' (split <;> try simp_all [Lower.bind, Lower.pure, assertL, throwE,
          prim, getInput, shapeAt])
  · intro hg hc1 hc2
    unfold compute_conv2d
    rcases hb2 : listIdx inputs 2 with _ | b2 <;>
      rcases hlay with h | h <;>
        simp [h, hg, hd, hk, hshape, hb2, hc1.symm, hc2.symm, hnot, Lower.bind,
          Lower.pure, assertL, throwE, prim, getInput, shapeAt] <;>
        repeat' (split <;> try simp_all [Lower.bind, Lower.pure, assertL, throwE,
          prim, getInput, shapeAt])
  · intro hg hc
    unfold compute_conv2d
    rcases hb2 : listIdx inputs 2 with _ | b2 <;>
      rcases hlay with h | h <;>
        simp [h, hg, hd, hk, hshape, hb2, hnot, Lower.bind, Lower.pure, assertL,
          throwE, prim, getInput, shapeAt] <;>
        repeat' (split <;> try simp_all [Lower.bind, Lower.pure, assertL, throwE,
          prim, getInput, shapeAt])
    all_goals omega

/-- C1 witness: at groups = channels = input channels = 4 the depthwise
primitive is invoked, and at groups = 2 against channels = input channels = 4
the call fails with the grouping error. -/
theorem conv2d_group_dispatch_witness :
    (∃ ker, Expr.depthwise_conv2d_nchw (Expr.handle sampleData) ker (1, 1) (0, 0)
      ∈ (compute_conv2d attrsDW [sampleData, sampleKernel] []).2) ∧
    (compute_conv2d ⟨(0, 0), (1, 1), (1, 1), 2, 4, "NCHW", false⟩
      [sampleData, sampleKernel] []).1 = Except.error Error.unsupportedGrouping ∧
    (compute_conv2d ⟨(0, 0), (1, 1), (1, 1), 0, 4, "NCHW", false⟩
      [sampleData, sampleKernel] []).1 = Except.error Error.unsupportedGrouping :=
  ⟨(conv2d_group_dispatch attrsDW [sampleData, sampleKernel] sampleData sampleKernel 4
      rfl rfl (Or.inl rfl) (by decide) rfl).2.1 (by decide) rfl rfl,
   (conv2d_group_dispatch ⟨(0, 0), (1, 1), (1, 1), 2, 4, "NCHW", false⟩
      [sampleData, sampleKernel] sampleData sampleKernel 4
      rfl rfl (Or.inl rfl) (by decide) rfl).2.2 (by decide) (by decide),
   (conv2d_group_dispatch ⟨(0, 0), (1, 1), (1, 1), 0, 4, "NCHW", false⟩
      [sampleData, sampleKernel] sampleData sampleKernel 4
      rfl rfl (Or.inl rfl) (by decide) rfl).2.2 (by decide) (by decide)⟩

/-- C2: with a valid non-unit dilation the kernel is dilated by zero
insertion with strides [1, 1, dh, dw] in NCHW layout and [1, dh, dw, 1] in
NHWC layout; in particular for dilation (2, 1) in NCHW the strides insert
exactly 1 zero between taps along axis 2 and 0 zeros along axis 3. -/
theorem conv2d_dilation_expansion (attrs : Conv2dAttrs) (inputs : List TensorHandle)
    (k : TensorHandle) (hk : listIdx inputs 1 = some k)
    (h1 : 1 ≤ attrs.dilation.1) (h2 : 1 ≤ attrs.dilation.2)
    (hne : attrs.dilation ≠ (1, 1)) :
    (attrs.layout = "NCHW" →
      Expr.dilate (Expr.handle k) [1, 1, attrs.dilation.1, attrs.dilation.2]
        ∈ (compute_conv2d attrs inputs []).2) ∧
    (attrs.layout = "NHWC" →
      Expr.dilate (Expr.handle k) [1, attrs.dilation.1, attrs.dilation.2, 1]
        ∈ (compute_conv2d attrs inputs []).2) ∧
    (attrs.dilation = (2, 1) →
      zerosInserted [1, 1, attrs.dilation.1, attrs.dilation.2] 2 = some 1 ∧
      zerosInserted [1, 1, attrs.dilation.1, attrs.dilation.2] 3 = some 0) := by
  have hnot : ¬ (attrs.dilation.1 < 1 ∨ attrs.dilation.2 < 1) := by omega
  refine ⟨?_, ?_, ?_⟩
  · intro h
    unfold compute_conv2d
    rcases hd0 : listIdx inputs 0 with _ | d0
    · simp [h, hk, hne, hnot, hd0, Lower.bind, Lower.pure, assertL, throwE, prim,
        getInput, shapeAt]
      repeat' (split <;> try simp_all [Lower.bind, Lower.pure, assertL, throwE, prim, getInput, shapeAt])
    · rcases hsh : listIdx d0.shape 1 with _ | inC <;>
        rcases hb2 : listIdx inputs 2 with _ | b2 <;>
        · simp [h, hk, hne, hnot, hd0, hsh, hb2, Lower.bind, Lower.pure, assertL,
            throwE, prim, getInput, shapeAt]
          repeat' (split <;> try simp_all [Lower.bind, Lower.pure, assertL, throwE, prim, getInput, shapeAt])
  · intro h
    unfold compute_conv2d
    rcases hd0 : listIdx inputs 0 with _ | d0
    · simp [h, hk, hne, hnot, hd0, Lower.bind, Lower.pure, assertL, throwE, prim,
        getInput, shapeAt]
      repeat' (split <;> try simp_all [Lower.bind, Lower.pure, assertL, throwE, prim, getInput, shapeAt])
    · rcases hsh : listIdx d0.shape 1 with _ | inC <;>
        rcases hb2 : listIdx inputs 2 with _ | b2 <;>
        · simp [h, hk, hne, hnot, hd0, hsh, hb2, Lower.bind, Lower.pure, assertL,
            throwE, prim, getInput, shapeAt]
          repeat' (split <;> try simp_all [Lower.bind, Lower.pure, assertL, throwE, prim, getInput, shapeAt])
  · intro h
    simp [h, zerosInserted, listIdx]

/-- C2 witness: for dilation (2, 1) in NCHW layout the dilate primitive is
invoked with strides [1, 1, 2, 1], inserting 1 zero along axis 2 and 0 zeros
along axis 3. -/
theorem conv2d_dilation_expansion_witness :
    Expr.dilate (Expr.handle sampleKernel) [1, 1, 2, 1]
      ∈ (compute_conv2d attrsDil [sampleData, sampleKernel] []).2 ∧
    zerosInserted [1, 1, 2, 1] 2 = some 1 ∧
    zerosInserted [1, 1, 2, 1] 3 = some 0 :=
  ⟨(conv2d_dilation_expansion attrsDil [sampleData, sampleKernel] sampleKernel
      rfl (by decide) (by decide) (by decide)).1 rfl,
   ((conv2d_dilation_expansion attrsDil [sampleData, sampleKernel] sampleKernel
      rfl (by decide) (by decide) (by decide)).2.2 rfl).1,
   ((conv2d_dilation_expansion attrsDil [sampleData, sampleKernel] sampleKernel
      rfl (by decide) (by decide) (by decide)).2.2 rfl).2⟩

/-- C3: with a valid layout and a dilation component below 1 the conv2d
compute lowering fails with `InvalidAttributeError` and its trace of
tensor-expression primitive calls is empty: no primitive was invoked before
the failure, so there are no partial side effects. -/
theorem conv2d_invalid_dilation_no_side_effects (attrs : Conv2dAttrs)
    (inputs : List TensorHandle)
    (hlay : attrs.layout = "NCHW" ∨ attrs.layout = "NHWC")
    (hbad : attrs.dilation.1 < 1 ∨ attrs.dilation.2 < 1) :
    compute_conv2d attrs inputs [] = (Except.error Error.invalidAttribute, []) := by
  unfold compute_conv2d
  rcases hlay with h | h <;>
    simp [h, Lower.bind, Lower.pure, assertL, throwE, if_pos hbad]

/-- C3 witness: dilation (0, 1) fails with the invalid-attribute error and an
empty primitive trace. -/
theorem conv2d_invalid_dilation_no_side_effects_witness :
    compute_conv2d attrsBadDil [sampleData, sampleKernel] [] =
      (Except.error Error.invalidAttribute, []) :=
  conv2d_invalid_dilation_no_side_effects attrsBadDil [sampleData, sampleKernel]
    (Or.inl rfl) (Or.inl (by decide))

/-- C4: conv2d_transpose applies, after the transpose-convolution primitive
and the optional bias add, an asymmetric zero pad with `[0, 0, 0, 0]` on the
leading edges and `[0, 0, op_h, op_w]` on the trailing edges of the four
axes: exactly op_h zeros after the spatial-height axis (axis 2) and op_w
zeros after the spatial-width axis (axis 3), none on batch or channel. -/
theorem conv2d_transpose_output_padding (attrs : Conv2dTransposeAttrs)
    (inputs : List TensorHandle) (d k : TensorHandle)
    (hd : listIdx inputs 0 = some d) (hk : listIdx inputs 1 = some k)
    (hlay : attrs.layout = "NCHW") (hdil : attrs.dilation = (1, 1))
    (hg : attrs.groups = 1) :
    (attrs.use_bias = false →
      (compute_conv2d_transpose attrs inputs []).1 =
        Except.ok (Expr.pad
          (Expr.conv2d_transpose_nchw (Expr.handle d) (Expr.handle k)
            attrs.strides attrs.padding)
          [0, 0, 0, 0] [0, 0, attrs.output_padding.1, attrs.output_padding.2])) ∧
    (∀ b, attrs.use_bias = true → listIdx inputs 2 = some b →
      (compute_conv2d_transpose attrs inputs []).1 =
        Except.ok (Expr.pad
          (Expr.broadcast_add
            (Expr.conv2d_transpose_nchw (Expr.handle d) (Expr.handle k)
              attrs.strides attrs.padding)
            (Expr.expand_dims (Expr.handle b) 1 2))
          [0, 0, 0, 0] [0, 0, attrs.output_padding.1, attrs.output_padding.2])) := by
  constructor
  · intro hb
    unfold compute_conv2d_transpose
    simp [hlay, hdil, hg, hb, hd, hk, Lower.bind, Lower.pure, assertL, throwE,
      prim, getInput]
  · intro b hb hb2
    unfold compute_conv2d_transpose
    simp [hlay, hdil, hg, hb, hb2, hd, hk, Lower.bind, Lower.pure, assertL, throwE,
      prim, getInput]

/-- C4 witness: output_padding (1, 2) pads exactly 1 zero row after the
height axis and 2 zero columns after the width axis, zero elsewhere. -/
theorem conv2d_transpose_output_padding_witness :
    (compute_conv2d_transpose attrsT [sampleData, sampleKernel] []).1 =
      Except.ok (Expr.pad
        (Expr.conv2d_transpose_nchw (Expr.handle sampleData)
          (Expr.handle sampleKernel) (1, 1) (0, 0))
        [0, 0, 0, 0] [0, 0, 1, 2]) :=
  (conv2d_transpose_output_padding attrsT [sampleData, sampleKernel] sampleData
    sampleKernel rfl rfl rfl rfl rfl).1 rfl

/-- C5: conv2d schedule lowering selects the NCHW conv template for
`groups == 1` and NCHW layout, the NHWC conv template for `groups == 1` and
NHWC layout, and the depthwise-NCHW template in every other case, and it
records the named target as the scope active at selection time. -/
theorem schedule_conv2d_dispatch (attrs : Conv2dAttrs) (target : String) :
    (schedule_conv2d attrs target).target = target ∧
    (attrs.groups = 1 → attrs.layout = "NCHW" →
      (schedule_conv2d attrs target).template = Template.conv2d_nchw) ∧
    (attrs.groups = 1 → attrs.layout = "NHWC" →
      (schedule_conv2d attrs target).template = Template.conv2d_nhwc) ∧
    (¬(attrs.groups = 1 ∧ (attrs.layout = "NCHW" ∨ attrs.layout = "NHWC")) →
      (schedule_conv2d attrs target).template =
        Template.depthwise_conv2d_nchw_sched) := by
  refine ⟨rfl, ?_, ?_, ?_⟩
  · intro h1 h2
    simp [schedule_conv2d, h1, h2]
  · intro h1 h2
    simp [schedule_conv2d, h1, h2]
  · intro h
    by_cases h1 : attrs.groups = 1
    · have h2 : attrs.layout ≠ "NCHW" := fun hh => h ⟨h1, Or.inl hh⟩
      have h3 : attrs.layout ≠ "NHWC" := fun hh => h ⟨h1, Or.inr hh⟩
      simp [schedule_conv2d, h1, h2, h3]
    · simp [schedule_conv2d, h1]

/-- C5 witness: groups 2 yields the depthwise template inside the scope of
the named target, and groups 1 with NCHW yields the NCHW conv template. -/
theorem schedule_conv2d_dispatch_witness :
    (schedule_conv2d attrsNHWCdw ("cuda")).template =
      Template.depthwise_conv2d_nchw_sched ∧
    (schedule_conv2d attrsNHWCdw ("cuda")).target = "cuda" ∧
    (schedule_conv2d attrsStd ("llvm")).template = Template.conv2d_nchw :=
  ⟨(schedule_conv2d_dispatch attrsNHWCdw ("cuda")).2.2.2 (by decide),
   (schedule_conv2d_dispatch attrsNHWCdw ("cuda")).1,
   (schedule_conv2d_dispatch attrsStd ("llvm")).2.1 rfl rfl⟩

/-- C7: with dilation exactly (1, 1) the kernel handed to the convolution
primitive (standard or depthwise) is the very handle `inputs[1]`, and no
dilate primitive is ever invoked. -/
theorem conv2d_unit_dilation_kernel_identity (attrs : Conv2dAttrs)
    (inputs : List TensorHandle) (d k : TensorHandle) (inC : Int)
    (hd : listIdx inputs 0 = some d) (hk : listIdx inputs 1 = some k)
    (hshape : listIdx d.shape 1 = some inC)
    (hlay : attrs.layout = "NCHW" ∨ attrs.layout = "NHWC")
    (hdil : attrs.dilation = (1, 1)) :
    (attrs.groups = 1 →
      Expr.conv2d (Expr.handle d) (Expr.handle k) attrs.strides attrs.padding
        attrs.layout ∈ (compute_conv2d attrs inputs []).2) ∧
    (attrs.groups ≠ 1 → attrs.groups = inC → attrs.groups = attrs.channels →
      Expr.depthwise_conv2d_nchw (Expr.handle d) (Expr.handle k) attrs.strides
        attrs.padding ∈ (compute_conv2d attrs inputs []).2) ∧
    (∀ x s, Expr.dilate x s ∉ (compute_conv2d attrs inputs []).2) := by
  have hnot : ¬ (attrs.dilation.1 < 1 ∨ attrs.dilation.2 < 1) := by simp [hdil]
  refine ⟨?_, ?_, ?_⟩
  · intro hg
    unfold compute_conv2d
    rcases hb2 : listIdx inputs 2 with _ | b2 <;>
      rcases hlay with h | h <;>
        simp [h, hg, hd, hk, hshape, hb2, hdil, hnot, Lower.bind, Lower.pure,
          assertL, throwE, prim, getInput, shapeAt] <;>
        repeat' (split <;> try simp_all [Lower.bind, Lower.pure, assertL, throwE,
          prim, getInput, shapeAt])
  · intro hg hc1 hc2
    unfold compute_conv2d
    rcases hb2 : listIdx inputs 2 with _ | b2 <;>
      rcases hlay with h | h <;>
        simp [h, hg, hd, hk, hshape, hb2, hdil, hc1.symm, hc2.symm, hnot,
          Lower.bind, Lower.pure, assertL, throwE, prim, getInput, shapeAt] <;>
        repeat' (split <;> try simp_all [Lower.bind, Lower.pure, assertL, throwE,
          prim, getInput, shapeAt])
  · intro x s
    unfold compute_conv2d
    rcases hb2 : listIdx inputs 2 with _ | b2 <;>
      rcases hlay with h | h <;>
        simp [h, hd, hk, hshape, hb2, hdil, hnot, Lower.bind, Lower.pure,
          assertL, throwE, prim, getInput, shapeAt] <;>
        repeat' (split <;> try simp_all [Lower.bind, Lower.pure, assertL, throwE,
          prim, getInput, shapeAt])

/-- C7 witness: at groups 1, NCHW, dilation (1, 1), the standard convolution
primitive receives exactly the raw kernel handle. -/
theorem conv2d_unit_dilation_kernel_identity_witness :
    Expr.conv2d (Expr.handle sampleData) (Expr.handle sampleKernel) (1, 1) (0, 0)
      "NCHW" ∈ (compute_conv2d attrsStd [sampleData, sampleKernel] []).2 :=
  (conv2d_unit_dilation_kernel_identity attrsStd [sampleData, sampleKernel]
    sampleData sampleKernel 4 rfl rfl rfl (Or.inl rfl) rfl).1 rfl

/-- C8: a layout other than exactly "NCHW" or "NHWC" makes conv2d compute
lowering fail with `UnsupportedLayoutError`; for those two layouts the call
never fails with that error. -/
theorem conv2d_layout_validation (attrs : Conv2dAttrs) (inputs : List TensorHandle) :
    (¬(attrs.layout = "NCHW" ∨ attrs.layout = "NHWC") →
      (compute_conv2d attrs inputs []).1 = Except.error Error.unsupportedLayout) ∧
    ((attrs.layout = "NCHW" ∨ attrs.layout = "NHWC") →
      (compute_conv2d attrs inputs []).1 ≠ Except.error Error.unsupportedLayout) := by
  constructor
  · intro hlay
    rw [compute_conv2d_bad_layout inputs hlay]
  · intro hlay
    unfold compute_conv2d
    rcases hd0 : listIdx inputs 0 with _ | d0
    · rcases hk1 : listIdx inputs 1 with _ | k1 <;>
        rcases hb2 : listIdx inputs 2 with _ | b2 <;>
        rcases hlay with h | h <;>
          simp [h, hd0, hk1, hb2, Lower.bind, Lower.pure, assertL, throwE, prim,
            getInput, shapeAt] <;>
          repeat' (split <;> try simp_all [Lower.bind, Lower.pure, assertL, throwE,
            prim, getInput, shapeAt])
    · rcases hsh : listIdx d0.shape 1 with _ | inC <;>
        rcases hk1 : listIdx inputs 1 with _ | k1 <;>
        rcases hb2 : listIdx inputs 2 with _ | b2 <;>
        rcases hlay with h | h <;>
          simp [h, hd0, hsh, hk1, hb2, Lower.bind, Lower.pure, assertL, throwE,
            prim, getInput, shapeAt] <;>
          repeat' (split <;> try simp_all [Lower.bind, Lower.pure, assertL, throwE,
            prim, getInput, shapeAt])

/-- C8 witness: layout "NHCW" fails with the unsupported-layout error while
layout "NCHW" does not produce that error. -/
theorem conv2d_layout_validation_witness :
    (compute_conv2d attrsBadLay [sampleData, sampleKernel] []).1 =
      Except.error Error.unsupportedLayout ∧
    (compute_conv2d attrsStd [sampleData, sampleKernel] []).1 ≠
      Except.error Error.unsupportedLayout :=
  ⟨(conv2d_layout_validation attrsBadLay [sampleData, sampleKernel]).1 (by decide),
   (conv2d_layout_validation attrsStd [sampleData, sampleKernel]).2 (Or.inl rfl)⟩

/-- C9 counterexample: "For every conv2d call with layout NHWC whose groups
equals both the axis-1 extent of the data tensor and the channels attribute,
the depthwise primitive is invoked" fails at the concrete input with
`groups = channels = inputs[0].shape[1] = 1`: the `groups == 1` arm of the
dispatch chain runs first, so the standard convolution primitive is invoked
and no depthwise primitive ever is. -/
theorem conv2d_nhwc_depthwise_counterexample :
    cxAttrs.layout = "NHWC" ∧
    listIdx cxData.shape 1 = some cxAttrs.groups ∧
    cxAttrs.groups = cxAttrs.channels ∧
    (∀ dt kt st pa, Expr.depthwise_conv2d_nchw dt kt st pa ∉
      (compute_conv2d cxAttrs [cxData, sampleKernel] []).2) ∧
    Expr.conv2d (Expr.handle cxData) (Expr.handle sampleKernel) (1, 1) (0, 0)
      "NHWC" ∈ (compute_conv2d cxAttrs [cxData, sampleKernel] []).2 := by
  have htrace : (compute_conv2d cxAttrs [cxData, sampleKernel] []).2 =
      [Expr.conv2d (Expr.handle cxData) (Expr.handle sampleKernel) (1, 1) (0, 0)
        "NHWC"] := rfl
  refine ⟨rfl, rfl, rfl, ?_, ?_⟩
  · intro dt kt st pa
    rw [htrace]
    simp
  · rw [htrace]
    simp

/-- C9 amended: for every conv2d compute-lowering call with layout "NHWC"
whose `groups` is not 1 but equals both the axis-1 extent of the data tensor
(the extent is read from axis 1 regardless of layout) and the `channels`
attribute, the depthwise-NCHW convolution primitive is still invoked: the
depthwise branch neither checks nor uses the layout. -/
theorem conv2d_nhwc_depthwise_amended (attrs : Conv2dAttrs)
    (inputs : List TensorHandle) (d k : TensorHandle) (inC : Int)
    (hd : listIdx inputs 0 = some d) (hk : listIdx inputs 1 = some k)
    (hshape : listIdx d.shape 1 = some inC)
    (hlay : attrs.layout = "NHWC")
    (hdil : 1 ≤ attrs.dilation.1 ∧ 1 ≤ attrs.dilation.2)
    (hg : attrs.groups ≠ 1) (hc1 : attrs.groups = inC)
    (hc2 : attrs.groups = attrs.channels) :
    ∃ ker, Expr.depthwise_conv2d_nchw (Expr.handle d) ker attrs.strides
      attrs.padding ∈ (compute_conv2d attrs inputs []).2 := by
  have hnot : ¬ (attrs.dilation.1 < 1 ∨ attrs.dilation.2 < 1) := by omega
  unfold compute_conv2d
  rcases hb2 : listIdx inputs 2 with _ | b2 <;>
    simp [hlay, hg, hd, hk, hshape, hb2, hc1.symm, hc2.symm, hnot, Lower.bind,
      Lower.pure, assertL, throwE, prim, getInput, shapeAt] <;>
    repeat' (split <;> try simp_all [Lower.bind, Lower.pure, assertL, throwE,
      prim, getInput, shapeAt])

/-- C9 witness: layout "NHWC" with groups = channels = axis-1 extent = 2
invokes the depthwise primitive. -/
theorem conv2d_nhwc_depthwise_amended_witness :
    ∃ ker, Expr.depthwise_conv2d_nchw (Expr.handle sampleData2) ker (1, 1) (0, 0)
      ∈ (compute_conv2d attrsNHWCdw [sampleData2, sampleKernel] []).2 :=
  conv2d_nhwc_depthwise_amended attrsNHWCdw [sampleData2, sampleKernel]
    sampleData2 sampleKernel 2 rfl rfl rfl rfl (by decide) (by decide) rfl rfl

/-- C10: with `use_bias` false, the compute lowerings of dense, conv2d,
conv2d NCHWc and conv2d_transpose never access the third input slot: on a
two-element input sequence none of them can fail with an index error for any
index. -/
theorem no_bias_two_inputs_safe (da : DenseAttrs) (ca : Conv2dAttrs)
    (na : Conv2dNCHWcAttrs) (ta : Conv2dTransposeAttrs)
    (a b : TensorHandle) (i : Nat)
    (h1 : da.use_bias = false) (h2 : ca.use_bias = false)
    (h3 : na.use_bias = false) (h4 : ta.use_bias = false) :
    (compute_dense da [a, b] []).1 ≠ Except.error (Error.indexError i) ∧
    (compute_conv2d ca [a, b] []).1 ≠ Except.error (Error.indexError i) ∧
    (compute_contrib_conv2d_NCHWc na [a, b] []).1 ≠
      Except.error (Error.indexError i) ∧
    (compute_conv2d_transpose ta [a, b] []).1 ≠
      Except.error (Error.indexError i) := by
  refine ⟨?_, ?_, ?_, ?_⟩
  · unfold compute_dense
    simp [h1, Lower.bind, Lower.pure, prim, getInput, listIdx]
  · by_cases hlay : ca.layout = "NCHW" ∨ ca.layout = "NHWC"
    · unfold compute_conv2d
      rcases hsh : listIdx a.shape 1 with _ | inC <;>
        rcases hlay with h | h <;>
          simp [h, h2, hsh, Lower.bind, Lower.pure, assertL, throwE, prim,
            getInput, shapeAt, listIdx] <;>
          repeat' (split <;> try simp_all [Lower.bind, Lower.pure, assertL,
            throwE, prim, getInput, shapeAt, listIdx])
    · simp [compute_conv2d_bad_layout _ hlay]
  · unfold compute_contrib_conv2d_NCHWc
    by_cases hD1 : na.dilation.1 = 1 <;>
      by_cases hD2 : na.dilation.2 = 1 <;>
        by_cases hG : na.groups = 1 <;>
          simp [h3, hD1, hD2, hG, Prod.ext_iff, Lower.bind, Lower.pure, assertL,
            throwE, prim, getInput, listIdx]
  · unfold compute_conv2d_transpose
    by_cases hL : ta.layout = "NCHW" <;>
      by_cases hD1 : ta.dilation.1 = 1 <;>
        by_cases hD2 : ta.dilation.2 = 1 <;>
          by_cases hG : ta.groups = 1 <;>
            simp [h4, hL, hD1, hD2, hG, Prod.ext_iff, Lower.bind, Lower.pure,
              assertL, throwE, prim, getInput, listIdx]

/-- C10 witness: concrete two-element inputs succeed without any index error
for all four operators with `use_bias` false (checked at index 2, the bias
slot). -/
theorem no_bias_two_inputs_safe_witness :
    (compute_dense denseNoBias [sampleData, sampleKernel] []).1 ≠
      Except.error (Error.indexError 2) ∧
    (compute_conv2d attrsStd [sampleData, sampleKernel] []).1 ≠
      Except.error (Error.indexError 2) ∧
    (compute_contrib_conv2d_NCHWc attrsNCHWc1 [sampleData, sampleKernel] []).1 ≠
      Except.error (Error.indexError 2) ∧
    (compute_conv2d_transpose attrsT [sampleData, sampleKernel] []).1 ≠
      Except.error (Error.indexError 2) :=
  no_bias_two_inputs_safe denseNoBias attrsStd attrsNCHWc1 attrsT sampleData
    sampleKernel 2 rfl rfl rfl rfl

end NN
